import Mathlib

/-
Verification of the configuration module `test-crawler/global_settings.py`.

The module is a process-wide configuration store: four literal constants
(`REPO`, `WORKFLOW_NAME`, `GITHUB_API_PARAMETER`, `OUTPUT_TARGET`) and one
environment-sourced value (`ACCESS_TOKEN = os.getenv("GITHUB_TOKEN")`).
We embed the environment as a partial map from variable names to values
(`none` meaning "unset", matching `os.getenv` returning `None`), the module
load as a function of that environment, and the spec's accessor surface
(`get_repository`, `get_workflow_name`, `get_access_token`,
`get_request_parameters`, `get_output_target`) as projections of the loaded
configuration.
-/

namespace GlobalSettings

/-- Process environment: maps a variable name to its value, `none` if unset.
This models `os.getenv`, which returns the exact string value when the
variable is set (including the empty string) and `None` otherwise. -/
def Env : Type := String → Option String

/-- Name of the environment variable read by the module. -/
def tokenVarName : String := "GITHUB_TOKEN"

/-- The empty string, used to state "non-empty" invariants. -/
def emptyStr : String := ""

/-- Line `REPO = "dapr/dapr"` of the source. -/
def REPO : String := "dapr/dapr"

/-- Line `WORKFLOW_NAME = "dapr-test.yml"` of the source. -/
def WORKFLOW_NAME : String := "dapr-test.yml"

/-- Key of the page-size parameter in `GITHUB_API_PARAMETER`. -/
def perPageKey : String := "per_page"

/-- Value of the page-size parameter in `GITHUB_API_PARAMETER`. -/
def perPageValue : String := "100"

/-- Line `GITHUB_API_PARAMETER = {"per_page": "100"}` of the source,
as an association list (the dict has a single key). -/
def GITHUB_API_PARAMETER : List (String × String) := [(perPageKey, perPageValue)]

/-- Line `OUTPUT_TARGET = "log.txt"` of the source. -/
def OUTPUT_TARGET : String := "log.txt"

/-- Line `ACCESS_TOKEN = os.getenv("GITHUB_TOKEN")` of the source:
the value of the environment variable, or `none` when unset. -/
def ACCESS_TOKEN (env : Env) : Option String := env tokenVarName

/-- The configuration the module holds after import: its five module-level
variables. -/
structure Config where
  repo : String
  workflow_name : String
  access_token : Option String
  github_api_parameter : List (String × String)
  output_target : String
deriving DecidableEq, Repr

/-- Reader over the environment that records the list of variable names
read, in order, so that "the environment is read exactly once" is statable. -/
@[reducible]
def EnvM (α : Type) : Type := Env → α × List String

/-- Lift a pure value into `EnvM`: no environment read happens. -/
def EnvM.pureVal {α : Type} (a : α) : EnvM α := fun _ => (a, [])

/-- Sequence two `EnvM` computations, concatenating their read traces. -/
def EnvM.bindVal {α β : Type} (x : EnvM α) (f : α → EnvM β) : EnvM β :=
  fun env =>
    let p := x env
    let q := f p.1 env
    (q.1, p.2 ++ q.2)

/-- The one environment lookup the module performs, `os.getenv(name)`:
returns the value and records the read. -/
def getenv (name : String) : EnvM (Option String) := fun env => (env name, [name])

/-- Module initialization, instrumented: executes the five top-level
assignments of `global_settings.py` in order.  The only effectful one is
`ACCESS_TOKEN = os.getenv("GITHUB_TOKEN")`; the other four bind literals. -/
def loadConfigM : EnvM Config :=
  EnvM.bindVal (getenv tokenVarName) (fun tok =>
    EnvM.pureVal
      { repo := REPO
        workflow_name := WORKFLOW_NAME
        access_token := tok
        github_api_parameter := GITHUB_API_PARAMETER
        output_target := OUTPUT_TARGET })

/-- The configuration resulting from importing the module under
environment `env`. -/
def loadConfig (env : Env) : Config := (loadConfigM env).1

/-- Accessor `get_repository()` of the spec: reads module variable `REPO`. -/
def get_repository (c : Config) : String := c.repo

/-- Accessor `get_workflow_name()` of the spec: reads `WORKFLOW_NAME`. -/
def get_workflow_name (c : Config) : String := c.workflow_name

/-- Accessor `get_access_token()` of the spec: reads `ACCESS_TOKEN`. -/
def get_access_token (c : Config) : Option String := c.access_token

/-- Accessor `get_request_parameters()` of the spec: reads
`GITHUB_API_PARAMETER`. -/
def get_request_parameters (c : Config) : List (String × String) :=
  c.github_api_parameter

/-- Accessor `get_output_target()` of the spec: reads `OUTPUT_TARGET`. -/
def get_output_target (c : Config) : String := c.output_target

/-- The four literal defaults of the module, abstracted so that loading can
be stated for arbitrary literal values (the source bakes in
`REPO`, `WORKFLOW_NAME`, `GITHUB_API_PARAMETER`, `OUTPUT_TARGET`). -/
structure Defaults where
  repo : String
  workflow_name : String
  github_api_parameter : List (String × String)
  output_target : String
deriving DecidableEq, Repr

/-- The literal defaults actually present in `global_settings.py`. -/
def sourceDefaults : Defaults :=
  { repo := REPO
    workflow_name := WORKFLOW_NAME
    github_api_parameter := GITHUB_API_PARAMETER
    output_target := OUTPUT_TARGET }

/-- Module load generalized over the literal defaults, with an explicit
error channel so that "aborts startup with a message" is statable.  The
source contains only straight-line assignments and no validation or raise,
so the body necessarily ends in `Except.ok`. -/
def loadModule (d : Defaults) (env : Env) : Except String Config :=
  Except.ok
    { repo := d.repo
      workflow_name := d.workflow_name
      access_token := env tokenVarName
      github_api_parameter := d.github_api_parameter
      output_target := d.output_target }

/-- Spec invariant on the repository identifier: exactly one separator
with non-empty owner and name segments. -/
def repoValid (s : String) : Bool :=
  let cs := s.toList
  (cs.count '/' == 1) &&
  (!(cs.takeWhile (fun c => c ≠ '/')).isEmpty) &&
  (!((cs.dropWhile (fun c => c ≠ '/')).drop 1).isEmpty)

/-- Decimal parse of a string: `some n` when the string is a non-empty
sequence of decimal digits denoting `n`, `none` otherwise. -/
def decimalValue? (s : String) : Option Nat :=
  let cs := s.toList
  if cs.isEmpty then none
  else if cs.all (fun c => c.isDigit) then
    some (cs.foldl (fun n c => n * 10 + (c.toNat - Char.toNat '0')) 0)
  else none

/-- Spec invariant on the request parameters: a page-size entry is present
and its value parses as a positive integer not exceeding 100. -/
def pageSizeValid (ps : List (String × String)) : Bool :=
  match ps.lookup perPageKey with
  | some v =>
      match decimalValue? v with
      | some n => decide (0 < n) && decide (n ≤ 100)
      | none => false
  | none => false

/-- Spec invariants on all literal defaults taken together. -/
def defaultsValid (d : Defaults) : Bool :=
  repoValid d.repo && (!d.workflow_name.isEmpty) &&
  pageSizeValid d.github_api_parameter && (!d.output_target.isEmpty)

/-- Five accessor names of the public contract. -/
inductive AccessorName : Type
  | repository
  | workflowName
  | accessToken
  | requestParameters
  | outputTarget
deriving DecidableEq, Repr

/-- Result value of an accessor invocation. -/
inductive AccessorValue : Type
  | str (s : String)
  | optStr (o : Option String)
  | params (ps : List (String × String))
deriving DecidableEq, Repr

/-- Invocation of an accessor as a step on the process state: it returns
the requested value and the configuration state after the call.  Reading a
module attribute mutates nothing, so the state is passed through. -/
def readAccessor : AccessorName → Config → AccessorValue × Config
  | AccessorName.repository, c => (AccessorValue.str c.repo, c)
  | AccessorName.workflowName, c => (AccessorValue.str c.workflow_name, c)
  | AccessorName.accessToken, c => (AccessorValue.optStr c.access_token, c)
  | AccessorName.requestParameters, c => (AccessorValue.params c.github_api_parameter, c)
  | AccessorName.outputTarget, c => (AccessorValue.str c.output_target, c)

/-- Concrete environment with no variables set. -/
def envUnset : Env := fun _ => none

/-- Value used by the spec scenario for a set token. -/
def ghpStr : String := "ghp_example123"

/-- An unrelated value for environment variables other than the token. -/
def otherStr : String := "other"

/-- Concrete environment where only the token variable is set, to the
scenario value. -/
def envGhp : Env := fun n => if n = tokenVarName then some ghpStr else none

/-- Concrete environment agreeing with `envGhp` on the token variable but
differing elsewhere. -/
def envGhp2 : Env := fun n => if n = tokenVarName then some ghpStr else some otherStr

/-- Concrete environment where the token variable is set to the empty
string. -/
def envEmptyTok : Env := fun n => if n = tokenVarName then some emptyStr else none

/-- A repository identifier violating the separator invariant. -/
def badRepoStr : String := "daprdapr"

/-- Literal defaults violating the repository invariant, used to witness
the absence of load-time validation. -/
def badDefaults : Defaults :=
  { repo := badRepoStr
    workflow_name := WORKFLOW_NAME
    github_api_parameter := GITHUB_API_PARAMETER
    output_target := OUTPUT_TARGET }

/-- The configuration obtained by loading the invalid defaults in an
empty environment. -/
def badLoadedConfig : Config :=
  { repo := badRepoStr
    workflow_name := WORKFLOW_NAME
    access_token := none
    github_api_parameter := GITHUB_API_PARAMETER
    output_target := OUTPUT_TARGET }

/-- C1: for every environment, `get_access_token` returns exactly the value
of the `GITHUB_TOKEN` environment variable when it is set, and `none` when
it is unset; no transformation and no empty-string substitution occurs. -/
theorem access_token_matches_environment (env : Env) :
    (∀ t : String, env tokenVarName = some t →
      get_access_token (loadConfig env) = some t) ∧
    (env tokenVarName = none → get_access_token (loadConfig env) = none) := by
  constructor
  · intro t h
    simpa [get_access_token, loadConfig, loadConfigM, EnvM.bindVal, EnvM.pureVal, getenv] using h
  · intro h
    simpa [get_access_token, loadConfig, loadConfigM, EnvM.bindVal, EnvM.pureVal, getenv] using h

/-- Witness for C1: in the environment setting the token to
`"ghp_example123"` the accessor returns exactly that value, and in the
empty environment it returns `none`. -/
theorem access_token_matches_environment_witness :
    get_access_token (loadConfig envGhp) = some ghpStr ∧
    get_access_token (loadConfig envUnset) = none :=
  ⟨(access_token_matches_environment envGhp).1 ghpStr (by decide),
   (access_token_matches_environment envUnset).2 rfl⟩

/-- Helper string for stating C2: the owner and name segment of `REPO`. -/
def daprStr : String := "dapr"

/-- Helper string for stating C2: the separator. -/
def slashStr : String := "/"

/-- C2: `REPO` contains exactly one separator character, and decomposes as
a non-empty owner, the separator, and a non-empty name, where neither
segment contains a further separator. -/
theorem repo_exactly_one_separator :
    REPO.toList.count '/' = 1 ∧
    ∃ owner name : String,
      owner ≠ emptyStr ∧ name ≠ emptyStr ∧
      REPO = owner ++ slashStr ++ name ∧
      owner.toList.count '/' = 0 ∧ name.toList.count '/' = 0 := by
  refine ⟨by decide, daprStr, daprStr, by decide, by decide, by decide, by decide, by decide⟩

/-- C3: the request-parameter list contains a page-size entry whose string
value parses as a positive integer not exceeding 100. -/
theorem parameters_page_size_valid :
    ∃ (v : String) (n : Nat),
      GITHUB_API_PARAMETER.lookup perPageKey = some v ∧
      decimalValue? v = some n ∧ 0 < n ∧ n ≤ 100 := by
  refine ⟨perPageValue, 100, by decide, by decide, by decide, by decide⟩

/-- C4: under every environment, the loaded defaults give exactly the
documented literals for the repository, workflow name and output target. -/
theorem default_values_exact (env : Env) :
    get_repository (loadConfig env) = "dapr/dapr" ∧
    get_workflow_name (loadConfig env) = "dapr-test.yml" ∧
    get_output_target (loadConfig env) = "log.txt" :=
  ⟨rfl, rfl, rfl⟩

/-- C5: module initialization succeeds for every environment state;
in particular absence of the token is surfaced as the value `none` in the
loaded configuration, not as a load-time error. -/
theorem module_load_never_fails (env : Env) :
    ∃ c : Config,
      loadModule sourceDefaults env = Except.ok c ∧
      get_access_token c = env tokenVarName :=
  ⟨{ repo := REPO
     workflow_name := WORKFLOW_NAME
     access_token := env tokenVarName
     github_api_parameter := GITHUB_API_PARAMETER
     output_target := OUTPUT_TARGET }, rfl, rfl⟩

/-- Counterexample to C6: the module performs no load-time validation.
With literal defaults whose repository identifier is missing the separator
(violating the invariant), loading still succeeds, it does not abort
with an error naming the offending field. -/
theorem load_ignores_invalid_defaults_cex :
    defaultsValid badDefaults = false ∧
    loadModule badDefaults envUnset = Except.ok badLoadedConfig :=
  ⟨by decide, rfl⟩

/-- C6 amended: configuration loading performs no invariant validation and
never aborts, for any literal defaults; the defect does not arise in the
shipped module because its actual literal defaults satisfy all the
invariants. -/
theorem load_never_aborts_defaults_valid :
    (∀ (d : Defaults) (env : Env), ∃ c : Config, loadModule d env = Except.ok c) ∧
    defaultsValid sourceDefaults = true :=
  ⟨fun d env =>
    ⟨{ repo := d.repo
       workflow_name := d.workflow_name
       access_token := env tokenVarName
       github_api_parameter := d.github_api_parameter
       output_target := d.output_target }, rfl⟩,
   by decide⟩

/-- C7: every accessor, invoked twice on the configuration loaded from any
environment, returns an identical result the second time, and leaves the
configuration state unchanged. -/
theorem accessors_idempotent (a : AccessorName) (env : Env) :
    readAccessor a ((readAccessor a (loadConfig env)).2) =
      readAccessor a (loadConfig env) ∧
    (readAccessor a (loadConfig env)).2 = loadConfig env := by
  cases a <;> exact ⟨rfl, rfl⟩

/-- C8: module initialization reads the environment exactly once, at the
`GITHUB_TOKEN` lookup, and is deterministic: two loads under environments
agreeing on `GITHUB_TOKEN` produce identical configurations (all five
fields equal).  No other effect occurs: the load is a pure function of the
environment. -/
theorem load_deterministic_single_read :
    (∀ env : Env, (loadConfigM env).2 = [tokenVarName]) ∧
    (∀ env env' : Env, env tokenVarName = env' tokenVarName →
      loadConfig env = loadConfig env') := by
  constructor
  · intro env
    rfl
  · intro env env' h
    simp [loadConfig, loadConfigM, EnvM.bindVal, EnvM.pureVal, getenv, h]

/-- Witness for C8: under the concrete environment setting the token, the
read trace is exactly the one token lookup, and a second environment
agreeing on the token but differing elsewhere yields an identical
configuration. -/
theorem load_deterministic_single_read_witness :
    (loadConfigM envGhp).2 = [tokenVarName] ∧ loadConfig envGhp = loadConfig envGhp2 :=
  ⟨load_deterministic_single_read.1 envGhp,
   load_deterministic_single_read.2 envGhp envGhp2 (by decide)⟩

/-- C9: noninterference of the secret: for any two environment states the
repository, workflow name, request parameters and output target coincide;
and the access token depends only on the `GITHUB_TOKEN` variable.  Only
`get_access_token` can vary with the environment. -/
theorem noninterference_of_secret (env env' : Env) :
    get_repository (loadConfig env) = get_repository (loadConfig env') ∧
    get_workflow_name (loadConfig env) = get_workflow_name (loadConfig env') ∧
    get_request_parameters (loadConfig env) = get_request_parameters (loadConfig env') ∧
    get_output_target (loadConfig env) = get_output_target (loadConfig env') ∧
    (env tokenVarName = env' tokenVarName →
      get_access_token (loadConfig env) = get_access_token (loadConfig env')) := by
  refine ⟨rfl, rfl, rfl, rfl, ?_⟩
  intro h
  simp [get_access_token, loadConfig, loadConfigM, EnvM.bindVal, EnvM.pureVal, getenv, h]

/-- Witness for C9: between an environment with the token set and the empty
environment, the four non-secret accessors agree; and between the two
environments agreeing on the token, the access token agrees as well. -/
theorem noninterference_of_secret_witness :
    get_repository (loadConfig envGhp) = get_repository (loadConfig envUnset) ∧
    get_access_token (loadConfig envGhp) = get_access_token (loadConfig envGhp2) :=
  ⟨(noninterference_of_secret envGhp envUnset).1,
   (noninterference_of_secret envGhp envGhp2).2.2.2.2 (by decide)⟩

/-- C10: when the `GITHUB_TOKEN` environment variable is set to the empty
string, `get_access_token` returns the present empty string, which is
distinct from the absent marker `none` returned when the variable is
unset. -/
theorem empty_token_distinct_from_absent (env : Env) :
    env tokenVarName = some emptyStr →
      get_access_token (loadConfig env) = some emptyStr ∧
      get_access_token (loadConfig env) ≠ none := by
  intro h
  constructor
  · simpa [get_access_token, loadConfig, loadConfigM, EnvM.bindVal, EnvM.pureVal, getenv] using h
  · simp [get_access_token, loadConfig, loadConfigM, EnvM.bindVal, EnvM.pureVal, getenv, h]

/-- Witness for C10: the concrete environment setting the token variable to
the empty string yields the present empty string, not the absent marker. -/
theorem empty_token_distinct_from_absent_witness :
    get_access_token (loadConfig envEmptyTok) = some emptyStr ∧
    get_access_token (loadConfig envEmptyTok) ≠ none :=
  empty_token_distinct_from_absent envEmptyTok (by decide)

end GlobalSettings
